import Mathlib

/-!
Verification of the KLResolute WhatsApp SaaS MVP inbound/outbound core.

This file gives a shallow embedding of the repository's data model
(`app/models.py`), the webhook pipeline (`app/webhooks.py`), the outbound
draft service (`app/services/message_service.py`) and the delivery attempt
engine (`app/services/outbound_delivery_service.py`), and proves the
behavioural properties claimed of them.

Modelling conventions:
- UUID primary keys become `Nat` drawn from a per-database id supply.
- Timestamps (timezone-aware datetimes) become `Int` seconds; the
  SQLAlchemy `server_default=func.now()` stamp is the `now` argument
  threaded through each operation.
- A SQLAlchemy session is modelled by its durable state (`Db`): in the
  source every `db.add` is immediately followed by `db.commit()`, so an
  insert-plus-commit is one atomic state update here.  A commit that the
  database refuses is modelled by an oracle (`Oracle`) naming which commit
  sites fail and how; an uncaught failure surfaces as `HandlerResult.raised`
  (the Python exception propagating out of the handler).
- Queries become pure list operations: `.one_or_none()` / `.first()` become
  `List.find?`, `.all()` becomes `List.filter`, aggregate `count`/`max`
  become a length / fold.  Row order of a list models the table scan order.
-/

namespace KLR

/-! ### Data model (from `app/models.py`)

Columns that no embedded operation reads or writes (display names, trial
windows, `received_at`, `last_message_at`, audit `created_at` defaults that
nothing queries) are omitted; each structure keeps the queried columns under
their source names. -/

/-- `conversations.status` enum (`automated`, `handed_over`, `closed`). -/
inductive ConvStatus
  | automated
  | handed_over
  | closed
deriving DecidableEq, Repr

/-- `messages.direction` enum (`inbound`, `outbound`). -/
inductive Direction
  | inbound
  | outbound
deriving DecidableEq, Repr

/-- Row of `whatsapp_numbers`. -/
structure WhatsAppNumberR where
  wa_number_id : Nat
  client_id : Nat
  destination_number : String
deriving DecidableEq, Repr

/-- Row of `clients` (only `client_id` is ever queried by the core). -/
structure ClientR where
  client_id : Nat
deriving DecidableEq, Repr

/-- Row of `contacts`; `contact_number` carries a unique constraint. -/
structure ContactR where
  contact_id : Nat
  contact_number : String
deriving DecidableEq, Repr

/-- Row of `conversations`; `status` server-defaults to `automated`,
`closed_at` is nullable (open conversation iff `none`). -/
structure ConversationR where
  conversation_id : Nat
  client_id : Nat
  wa_number_id : Nat
  contact_id : Nat
  status : ConvStatus
  closed_at : Option Int
deriving DecidableEq, Repr

/-- Row of `messages`; `provider_message_id` is nullable and doubles as the
outbound idempotency key, `stored_at` server-defaults to now. -/
structure MessageR where
  message_id : Nat
  conversation_id : Nat
  direction : Direction
  message_text : String
  provider_message_id : Option String
  sent_at : Option Int
  stored_at : Option Int
deriving DecidableEq, Repr

/-- Row of `delivery_events` (append-only audit log). -/
structure DeliveryEventR where
  delivery_event_id : Nat
  message_id : Nat
  event_type : String
  event_detail : String
  created_at : Int
deriving DecidableEq, Repr

/-- Row of `faq_items`. -/
structure FaqItemR where
  faq_id : Nat
  client_id : Nat
  match_pattern : String
  response_text : String
  is_active : Bool
deriving DecidableEq, Repr

/-- The durable store: one list per table, plus the id supply that stands in
for `uuid.uuid4()` row-id generation. -/
structure Db where
  whatsapp_numbers : List WhatsAppNumberR
  clients : List ClientR
  contacts : List ContactR
  conversations : List ConversationR
  messages : List MessageR
  faq_items : List FaqItemR
  delivery_events : List DeliveryEventR
  next_id : Nat
deriving DecidableEq, Repr

/-- Database-side failures: `integrity` models `sqlalchemy.exc.IntegrityError`
(unique/foreign-key violation), `unavailable` any other persistence error. -/
inductive DbErr
  | integrity
  | unavailable
deriving DecidableEq, Repr

/-- The distinct `db.commit()` sites of the embedded code. -/
inductive CommitSite
  | admin_add_contact
  | admin_remove_contact
  | contact_create
  | conversation_create
  | inbound_insert
  | outbound_insert
deriving DecidableEq, Repr

/-- Failure oracle: which commit sites fail and with which error.  `none`
means the commit succeeds. -/
abbrev Oracle := CommitSite → Option DbErr

/-- Python exceptions that are not store errors: the deterministic
`ImportError` raised by the broken `app.outbound` package init (its
`__init__.py` imports `OutboundDeliverySettings` and `build_send_gateway`
from `factory.py`, which defines neither), and the `AttributeError` raised
by calling the nowhere-defined `Message.to_send_request`. -/
inductive PyExc
  | import_error
  | attribute_error
deriving DecidableEq, Repr

/-- Result of the webhook handler: the fixed `Response(status_code=200)`, a
persistence exception propagating out of the handler, or the deterministic
`ImportError` of an admin branch's messenger import (either way FastAPI
turns the exception into an error response). -/
inductive HandlerResult
  | ok200
  | raised (e : DbErr)
  | raised_import
deriving DecidableEq, Repr

/-! ### Outbound draft service (from `app/services/message_service.py`) -/

/-- `_IDEMPOTENCY_PREFIX + inbound_message_id`: the derived idempotency key
for the outbound draft anchored at an inbound message. -/
def idem_key (inbound_message_id : Nat) : String :=
  "parent_inbound:" ++ toString inbound_message_id

/-- `timedelta(minutes=2)` of the H-01 dedup window, in seconds. -/
def TWO_MINUTES : Int := 120

/-- Strict "comes first under `ORDER BY stored_at DESC`" (PostgreSQL sorts
NULLs first on a descending order). -/
def later_in_desc (a b : Option Int) : Bool :=
  match a, b with
  | none, none => false
  | none, some _ => true
  | some _, none => false
  | some x, some y => decide (y < x)

/-- The query for the most recent outbound message with identical text in a
conversation (`order_by(Message.stored_at.desc()).first()`); among rows with
an equal key the earlier-scanned row is kept, as `.first()` fixes no
tie-break. -/
def last_outbound_same_text (db : Db) (conversation_id : Nat)
    (message_text : String) : Option MessageR :=
  (db.messages.filter fun m =>
      decide (m.conversation_id = conversation_id
        ∧ m.direction = Direction.outbound
        ∧ m.message_text = message_text))
    |>.foldl
        (fun acc m =>
          match acc with
          | none => some m
          | some a => if later_in_desc m.stored_at a.stored_at then some m else some a)
        none

/-- The idempotency query of `_create_outbound_message`: any outbound message
in this conversation whose `provider_message_id` equals the key. -/
def find_existing_for_inbound (db : Db) (conversation_id : Nat) (key : String) :
    Option MessageR :=
  db.messages.find? fun m =>
    decide (m.conversation_id = conversation_id
      ∧ m.direction = Direction.outbound
      ∧ m.provider_message_id = some key)

/-- `MessageService._create_outbound_message`: create an outbound draft if
neither the inbound-anchored idempotency rule nor the 2-minute same-text
dedup rule suppresses it. -/
def create_outbound_message (o : Oracle) (now : Int) (db : Db)
    (inbound_message_id conversation_id : Nat) (message_text : String) :
    Except DbErr (Option MessageR × Db) :=
  let idempotency_key := idem_key inbound_message_id
  match find_existing_for_inbound db conversation_id idempotency_key with
  | some _ => .ok (none, db)
  | none =>
    let suppressed :=
      match last_outbound_same_text db conversation_id message_text with
      | some m =>
        match m.stored_at with
        | some t => decide (now - t < TWO_MINUTES)
        | none => false
      | none => false
    if suppressed then .ok (none, db)
    else
      match o CommitSite.outbound_insert with
      | some e => .error e
      | none =>
        let outbound : MessageR :=
          { message_id := db.next_id
            conversation_id := conversation_id
            direction := Direction.outbound
            message_text := message_text
            provider_message_id := some idempotency_key
            sent_at := none
            stored_at := some now }
        .ok (some outbound,
          { db with
            messages := db.messages ++ [outbound]
            next_id := db.next_id + 1 })

/-- `MessageService.handle_inbound_message`: entry point for outbound
creation; `if not selected_response: return` is falsy for both `None` and
the empty string. -/
def handle_inbound_message (o : Oracle) (now : Int) (db : Db)
    (inbound_message_id conversation_id : Nat) (_inbound_text : String)
    (selected_response : Option String) : Except DbErr Db :=
  match selected_response with
  | none => .ok db
  | some r =>
    if r = "" then .ok db
    else
      match create_outbound_message o now db inbound_message_id conversation_id r with
      | .error e => .error e
      | .ok (_, db') => .ok db'

/-- Count of messages with a given direction. -/
def count_messages (db : Db) (d : Direction) : Nat :=
  (db.messages.filter fun m => decide (m.direction = d)).length

/-- Count of outbound messages in a conversation carrying a given
idempotency key. -/
def key_count (db : Db) (conversation_id : Nat) (key : String) : Nat :=
  (db.messages.filter fun m =>
    decide (m.conversation_id = conversation_id
      ∧ m.direction = Direction.outbound
      ∧ m.provider_message_id = some key)).length

/-! ### Webhook handler (from `app/webhooks.py`) -/

/-- Python string truthiness for an extracted payload field: present and
non-empty (`if not destination_number or ...`). -/
def nonempty_str : Option String → Option String
  | some s => if s = "" then none else some s
  | none => none

/-- A parsed webhook payload after the `_extract_*` helpers: each field is
`none` when the JSON path was absent. -/
structure Payload where
  destination_number : Option String
  sender_number : Option String
  message_text : Option String
deriving DecidableEq, Repr

/-- Python `s.strip()` on a character list: drop whitespace at both ends. -/
def trim_chars (l : List Char) : List Char :=
  ((l.dropWhile Char.isWhitespace).reverse.dropWhile Char.isWhitespace).reverse

/-- Python `s.strip()`. -/
def strip_str (s : String) : String :=
  String.mk (trim_chars s.toList)

/-- `_normalise_msisdn`: keep digits, map a leading `0` to `27`, accept only
`27…` numbers of length at least 11. -/
def normalise_msisdn (raw : String) : Option String :=
  let digits := raw.toList.filter Char.isDigit
  if digits = [] then none
  else
    let digits := if digits.take 1 = ['0'] then '2' :: '7' :: digits.drop 1 else digits
    if (['2', '7'].isPrefixOf digits) && decide (11 ≤ digits.length) then
      some (String.mk digits)
    else none

/-- Everything after the first colon of a character list (empty when no
colon occurs). -/
def after_colon : List Char → List Char
  | [] => []
  | c :: t => if c = ':' then t else after_colon t

/-- Python `s.split(":", 1)[1]`: everything after the first colon. -/
def after_first_colon (s : String) : String :=
  String.mk (after_colon s.toList)

/-- Python `s.split()` on a character list: split on whitespace runs,
dropping empty pieces; `cur` accumulates the current word reversed. -/
def words_aux (cur : List Char) : List Char → List (List Char)
  | [] => if cur = [] then [] else [cur.reverse]
  | c :: t =>
    if c.isWhitespace then
      if cur = [] then words_aux [] t else cur.reverse :: words_aux [] t
    else words_aux (c :: cur) t

/-- Python `s.split()` (no arguments). -/
def split_ws (s : String) : List String :=
  (words_aux [] s.toList).map String.mk

/-- Python `s.split(maxsplit=1)` on an already-stripped string: first
whitespace-delimited token, then the untouched remainder. -/
def split_max_one (s : String) : List String :=
  match s.toList with
  | [] => []
  | c :: t =>
    let tok := (c :: t).takeWhile (fun ch => !ch.isWhitespace)
    let rest := ((c :: t).drop tok.length).dropWhile Char.isWhitespace
    if rest.isEmpty then [String.mk tok] else [String.mk tok, String.mk rest]

/-- `p` occurs as a contiguous sublist of the second argument. -/
def is_infix_list (p : List Char) : List Char → Bool
  | [] => p.isEmpty
  | c :: t => p.isPrefixOf (c :: t) || is_infix_list p t

/-- Python `pat.lower() in s.lower()`: case-insensitive substring test used
for FAQ matching (lower-casing maps `Char.toLower` over the characters,
matching `String.toLower`). -/
def contains_ci (pat s : String) : Bool :=
  is_infix_list (pat.toList.map Char.toLower) (s.toList.map Char.toLower)

/-- Python `s.upper().startswith(pat)` (upper-casing maps `Char.toUpper`
over the characters, matching `String.toUpper`). -/
def upper_starts_with (s pat : String) : Bool :=
  pat.toList.isPrefixOf (s.toList.map Char.toUpper)

/-- Module-scope names bound by `app/outbound/factory.py` (its definitions
and its imports).  It binds neither `OutboundDeliverySettings` nor
`build_send_gateway`, the two names other modules import from it. -/
def factory_attr_names : List String :=
  ["annotations", "Blueprint", "Flask", "jsonify", "request",
   "MetaWhatsAppClient", "MetaWhatsAppError", "load_meta_settings",
   "_meta_client", "get_meta_client", "register_outbound_routes"]

/-- Python `from <module> import <names>`: succeeds iff the module binds
every requested name, else raises `ImportError`. -/
def import_from (module_attr_names : List String) (names : List String) :
    Except PyExc Unit :=
  if names.all module_attr_names.contains then .ok ()
  else .error PyExc.import_error

/-- Initialising the `app.outbound` package runs `app/outbound/__init__.py`,
whose line 4 is `from .factory import OutboundDeliverySettings,
build_send_gateway`. -/
def outbound_pkg_init : Except PyExc Unit :=
  import_from factory_attr_names ["OutboundDeliverySettings", "build_send_gateway"]

/-- `from app.messaging.admin_messenger import AdminMessenger` (and likewise
`ClientMessenger`): the messenger modules start with
`from app.outbound.factory import get_meta_client`, which first initialises
the `app.outbound` package, so the import raises whenever the package init
does — and it always does. -/
def import_messengers : Except PyExc Unit :=
  match outbound_pkg_init with
  | .error e => .error e
  | .ok _ => import_from factory_attr_names ["get_meta_client"]

/-- The `ADD CLIENT: <number>` admin branch.  Its first statement — the
messenger import, which sits before the `try` block — deterministically
raises `ImportError`, so the branch always raises and the translated body
after the import gate is dead code.  In that body, messenger confirmations
are external I/O (no store effect) and are not modelled; every body path
answers the fixed 200 response, and any body exception is caught
(`db.rollback()`), so a failing commit leaves the store unchanged. -/
def add_client_branch (o : Oracle) (db : Db) (message_text : String) :
    HandlerResult × Db :=
  match import_messengers with
  | .error _ => (.raised_import, db)
  | .ok _ =>
  let parts := split_ws (strip_str (after_first_colon message_text))
  match parts.getLast? with
  | none => (.ok200, db)
  | some raw =>
    match normalise_msisdn raw with
    | none => (.ok200, db)
    | some msisdn =>
      match db.contacts.find? (fun c => decide (c.contact_number = msisdn)) with
      | some _ => (.ok200, db)
      | none =>
        match o CommitSite.admin_add_contact with
        | some _ => (.ok200, db)
        | none =>
          let contact : ContactR := { contact_id := db.next_id, contact_number := msisdn }
          (.ok200,
            { db with
              contacts := db.contacts ++ [contact]
              next_id := db.next_id + 1 })

/-- The `REMOVE CLIENT: <number>` admin branch: the branch-entry
messenger import always raises, as in `add_client_branch`; in the dead
body, `IntegrityError` (linked records) and any other commit failure are
both caught and acknowledged. -/
def remove_client_branch (o : Oracle) (db : Db) (message_text : String) :
    HandlerResult × Db :=
  match import_messengers with
  | .error _ => (.raised_import, db)
  | .ok _ =>
  let parts := split_ws (strip_str (after_first_colon message_text))
  match parts.getLast? with
  | none => (.ok200, db)
  | some raw =>
    match normalise_msisdn raw with
    | none => (.ok200, db)
    | some msisdn =>
      match db.contacts.find? (fun c => decide (c.contact_number = msisdn)) with
      | none => (.ok200, db)
      | some existing =>
        match o CommitSite.admin_remove_contact with
        | some _ => (.ok200, db)
        | none =>
          (.ok200,
            { db with
              contacts := db.contacts.filter
                (fun c => decide (c.contact_id ≠ existing.contact_id)) })

/-- The `SEND: <number> <message>` admin branch: the branch-entry imports of
both messengers always raise, as in `add_client_branch`; the dead body is
queries only (the session send is external I/O) and every body path answers
200 with the store untouched. -/
def send_branch (db : Db) (message_text : String) : HandlerResult × Db :=
  match import_messengers with
  | .error _ => (.raised_import, db)
  | .ok _ =>
  let parts := split_max_one (strip_str (after_first_colon message_text))
  match parts with
  | [raw, text] =>
    match normalise_msisdn raw with
    | none => (.ok200, db)
    | some msisdn =>
      if strip_str text = "" then (.ok200, db)
      else
        match db.contacts.find? (fun c => decide (c.contact_number = msisdn)) with
        | none => (.ok200, db)
        | some _ => (.ok200, db)
  | _ => (.ok200, db)

/-- Resolve-or-create Contact by sender number (webhook pipeline): the
lookup, and on miss an insert-plus-commit that is **not** wrapped in any
exception handler — a failing commit propagates. -/
def resolve_contact (o : Oracle) (db : Db) (sender_number : String) :
    Except DbErr (ContactR × Db) :=
  match db.contacts.find? (fun c => decide (c.contact_number = sender_number)) with
  | some contact => .ok (contact, db)
  | none =>
    match o CommitSite.contact_create with
    | some e => .error e
    | none =>
      let contact : ContactR := { contact_id := db.next_id, contact_number := sender_number }
      .ok (contact,
        { db with
          contacts := db.contacts ++ [contact]
          next_id := db.next_id + 1 })

/-- Resolve-or-create the open Conversation for (wa_number, contact); a new
row gets the server defaults `status = automated`, `closed_at = NULL`.  As
with contacts, the insert commit is uncaught. -/
def resolve_conversation (o : Oracle) (db : Db) (client : ClientR)
    (wa_number : WhatsAppNumberR) (contact : ContactR) :
    Except DbErr (ConversationR × Db) :=
  match db.conversations.find? (fun cv =>
      decide (cv.wa_number_id = wa_number.wa_number_id
        ∧ cv.contact_id = contact.contact_id
        ∧ cv.closed_at = none)) with
  | some conversation => .ok (conversation, db)
  | none =>
    match o CommitSite.conversation_create with
    | some e => .error e
    | none =>
      let conversation : ConversationR :=
        { conversation_id := db.next_id
          client_id := client.client_id
          wa_number_id := wa_number.wa_number_id
          contact_id := contact.contact_id
          status := ConvStatus.automated
          closed_at := none }
      .ok (conversation,
        { db with
          conversations := db.conversations ++ [conversation]
          next_id := db.next_id + 1 })

/-- The non-admin part of `whatsapp_webhook` (lines 253-329): resolve number
and client (soft misses answer 200), resolve-or-create contact and
conversation, persist the inbound message, match active FAQs and delegate
outbound creation to the message service.  The conversation's `status` is
never consulted.  None of the commits here is wrapped in an exception
handler. -/
def main_pipeline (o : Oracle) (now : Int) (db : Db)
    (destination_number sender_number message_text : String) :
    HandlerResult × Db :=
  match db.whatsapp_numbers.find? (fun w =>
      decide (w.destination_number = destination_number)) with
  | none => (.ok200, db)
  | some wa_number =>
    match db.clients.find? (fun c => decide (c.client_id = wa_number.client_id)) with
    | none => (.ok200, db)
    | some client =>
      match resolve_contact o db sender_number with
      | .error e => (.raised e, db)
      | .ok (contact, db1) =>
        match resolve_conversation o db1 client wa_number contact with
        | .error e => (.raised e, db1)
        | .ok (conversation, db2) =>
          match o CommitSite.inbound_insert with
          | some e => (.raised e, db2)
          | none =>
            let inbound_msg : MessageR :=
              { message_id := db2.next_id
                conversation_id := conversation.conversation_id
                direction := Direction.inbound
                message_text := message_text
                provider_message_id := none
                sent_at := none
                stored_at := some now }
            let db3 : Db :=
              { db2 with
                messages := db2.messages ++ [inbound_msg]
                next_id := db2.next_id + 1 }
            let faqs := db3.faq_items.filter (fun f =>
              decide (f.client_id = client.client_id) && f.is_active)
            match faqs.find? (fun f => contains_ci f.match_pattern message_text) with
            | none => (.ok200, db3)
            | some matched_faq =>
              match handle_inbound_message o now db3 inbound_msg.message_id
                  conversation.conversation_id message_text
                  (some matched_faq.response_text) with
              | .error e => (.raised e, db3)
              | .ok db4 => (.ok200, db4)

/-- `whatsapp_webhook`: payload parse/extraction guards, the three admin
command branches, then the inbound pipeline.  `payload = none` models a
request body that fails `request.json()`. -/
def whatsapp_webhook (admin_allowlist : List String) (o : Oracle) (now : Int)
    (payload : Option Payload) (db : Db) : HandlerResult × Db :=
  match payload with
  | none => (.ok200, db)
  | some p =>
    match nonempty_str p.destination_number, nonempty_str p.sender_number,
        nonempty_str p.message_text with
    | some destination_number, some sender_number, some message_text =>
      let is_admin := admin_allowlist.contains sender_number
      if is_admin && upper_starts_with message_text "ADD CLIENT:" then
        add_client_branch o db message_text
      else if is_admin && upper_starts_with message_text "REMOVE CLIENT:" then
        remove_client_branch o db message_text
      else if is_admin && upper_starts_with message_text "SEND:" then
        send_branch db message_text
      else
        main_pipeline o now db destination_number sender_number message_text
    | _, _, _ => (.ok200, db)

/-- The handler intercepts the request as an admin command: all payload
fields present and non-empty, the sender on the allowlist, and the text
starting (upper-cased) with one of the three command markers.  Mirrors the
guard conditions of `whatsapp_webhook`. -/
def is_admin_command (admin_allowlist : List String) (payload : Option Payload) :
    Bool :=
  match payload with
  | none => false
  | some p =>
    match nonempty_str p.destination_number, nonempty_str p.sender_number,
        nonempty_str p.message_text with
    | some _, some sender_number, some message_text =>
      admin_allowlist.contains sender_number
        && (upper_starts_with message_text "ADD CLIENT:"
            || upper_starts_with message_text "REMOVE CLIENT:"
            || upper_starts_with message_text "SEND:")
    | _, _, _ => false

/-! ### Delivery attempt engine (from `app/services/outbound_delivery_service.py`) -/

/-- Retry policy constants; the backoffs are `timedelta(minutes=5)` and
`timedelta(minutes=30)` in seconds. -/
def MAX_ATTEMPTS : Nat := 3

def BACKOFF_AFTER_ATTEMPT_1 : Int := 300

def BACKOFF_AFTER_ATTEMPT_2 : Int := 1800

def EVENT_DRY_RUN_ATTEMPT : String := "dry_run_attempt"

def EVENT_RETRY_ATTEMPT : String := "retry_attempt"

def EVENT_RETRY_EXHAUSTED : String := "retry_exhausted"

def ATTEMPT_EVENT_TYPES : List String :=
  [EVENT_DRY_RUN_ATTEMPT, EVENT_RETRY_ATTEMPT]

/-- `SendStatus` of the gateway receipt (`app/outbound/gateway.py`). -/
inductive SendStatusR
  | dry_run
  | sent
  | failed
  | disabled
deriving DecidableEq, Repr

/-- A gateway receipt, as far as the engine consumes it: the status decides
the recorded event type, the detail is copied into the audit row.  The
gateway is a pluggable boundary that never throws, so a run is parametrised
by the receipt it returns. -/
structure Receipt where
  status : SendStatusR
  detail : String
deriving DecidableEq, Repr

/-- The events counted as attempts for one message
(`event_type.in_(ATTEMPT_EVENT_TYPES)` filtered by `message_id`). -/
def attempt_events (db : Db) (message_id : Nat) : List DeliveryEventR :=
  db.delivery_events.filter fun e =>
    decide (e.message_id = message_id) && ATTEMPT_EVENT_TYPES.contains e.event_type

/-- `_get_attempt_state`: `(count, max created_at)` over the attempt events
of a message; the aggregate max of an empty set is SQL NULL. -/
def get_attempt_state (db : Db) (message_id : Nat) : Nat × Option Int :=
  let es := attempt_events db message_id
  (es.length,
    es.foldl
      (fun acc e =>
        match acc with
        | none => some e.created_at
        | some t => some (max t e.created_at))
      none)

/-- `_required_wait`: wait before the next attempt, `none` once no further
attempt is allowed. -/
def required_wait (attempts : Nat) : Option Int :=
  if attempts = 0 then some 0
  else if attempts = 1 then some BACKOFF_AFTER_ATTEMPT_1
  else if attempts = 2 then some BACKOFF_AFTER_ATTEMPT_2
  else none

/-- `_ensure_exhausted_event`: insert the single terminal
`retry_exhausted` audit row unless one already exists (checked before
insert); `now` is the database `created_at` stamp. -/
def ensure_exhausted_event (now : Int) (db : Db) (message_id : Nat)
    (attempts : Nat) : Db :=
  match db.delivery_events.find? (fun e =>
      decide (e.message_id = message_id ∧ e.event_type = EVENT_RETRY_EXHAUSTED)) with
  | some _ => db
  | none =>
    let ev : DeliveryEventR :=
      { delivery_event_id := db.next_id
        message_id := message_id
        event_type := EVENT_RETRY_EXHAUSTED
        event_detail := "max attempts reached (" ++ toString attempts ++ ")"
        created_at := now }
    { db with
      delivery_events := db.delivery_events ++ [ev]
      next_id := db.next_id + 1 }

/-- Attribute names of the ORM `Message` class (`app/models.py`): its
columns and its one relationship.  `to_send_request`, which line 131 of the
delivery service calls, is not among them. -/
def message_attr_names : List String :=
  ["message_id", "conversation_id", "direction", "message_text",
   "provider_message_id", "received_at", "sent_at", "stored_at",
   "conversation"]

/-- Python attribute access `msg.<attr>` on a `Message` row:
`AttributeError` when the class defines no such attribute. -/
def getattr_message (attr : String) : Except PyExc Unit :=
  if message_attr_names.contains attr then .ok ()
  else .error PyExc.attribute_error

/-- Importing `app/services/outbound_delivery_service.py`: it first
initialises the `app.outbound` package (which raises), and its own line 31
is `from app.outbound.factory import OutboundDeliverySettings,
build_send_gateway` — names `factory.py` does not bind.  The module, and
with it `OutboundDeliveryService`, can never be loaded. -/
def outbound_delivery_service_import : Except PyExc Unit :=
  match outbound_pkg_init with
  | .error e => .error e
  | .ok _ =>
    import_from factory_attr_names
      ["OutboundDeliverySettings", "build_send_gateway"]

/-- `_attempt_if_eligible` for one outbound message: enforce the cap, the
backoff (a zero `timedelta` is falsy, so no wait is enforced before the
first attempt), then evaluate `msg.to_send_request()` for the gateway call
of line 131.  `Message` defines no `to_send_request`, so every eligible
message raises `AttributeError` there — before the gateway is invoked and
before any event is added; the translated continuation that records the
receipt as one attempt event and stamps `sent_at` is dead code.  Every
query of the source method filters on this `message_id`, so the per-message
behaviour depends only on this message's own events. -/
def attempt_if_eligible (receipt : Receipt) (now : Int) (db : Db)
    (message_id : Nat) : Except PyExc (Bool × Db) :=
  let st := get_attempt_state db message_id
  let attempts := st.1
  let last_attempt_at := st.2
  if MAX_ATTEMPTS ≤ attempts then
    .ok (false, ensure_exhausted_event now db message_id attempts)
  else
    let blocked :=
      match last_attempt_at, required_wait attempts with
      | some t, some w => decide (w ≠ 0) && decide (now - t < w)
      | _, _ => false
    if blocked then .ok (false, db)
    else
      match getattr_message "to_send_request" with
      | .error e => .error e
      | .ok _ =>
        let event_type :=
          match receipt.status with
          | SendStatusR.disabled => EVENT_DRY_RUN_ATTEMPT
          | SendStatusR.failed => EVENT_DRY_RUN_ATTEMPT
          | _ => EVENT_RETRY_ATTEMPT
        let ev : DeliveryEventR :=
          { delivery_event_id := db.next_id
            message_id := message_id
            event_type := event_type
            event_detail := receipt.detail
            created_at := now }
        .ok (true,
          { db with
            delivery_events := db.delivery_events ++ [ev]
            messages := db.messages.map (fun m =>
              if decide (m.message_id = message_id) then { m with sent_at := some now } else m)
            next_id := db.next_id + 1 })

/-- "Comes no later under `ORDER BY stored_at ASC`" (PostgreSQL sorts NULLs
last on an ascending order). -/
def stored_asc (a b : Option Int) : Bool :=
  match a, b with
  | none, none => true
  | none, some _ => false
  | some _, none => true
  | some x, some y => decide (x ≤ y)

/-- Insertion step of a stable sort by `stored_asc`. -/
def insert_by_stored (m : MessageR) : List MessageR → List MessageR
  | [] => [m]
  | x :: xs =>
    if stored_asc m.stored_at x.stored_at then m :: x :: xs
    else x :: insert_by_stored m xs

/-- The `order_by(Message.stored_at.asc())` ordering of a run's outbound
messages. -/
def sort_by_stored (ms : List MessageR) : List MessageR :=
  ms.foldr insert_by_stored []

/-- The per-message loop of `run_delivery`, threading the session state and
the count of performed attempts; the first raised exception aborts the
loop. -/
def run_loop (receipt : Receipt) (now : Int) :
    List MessageR → Nat → Db → Except PyExc (Nat × Db)
  | [], n, db => .ok (n, db)
  | m :: rest, n, db =>
    match attempt_if_eligible receipt now db m.message_id with
    | .error e => .error e
    | .ok (performed, db') =>
      run_loop receipt now rest (if performed then n + 1 else n) db'

/-- `OutboundDeliveryService.run_delivery`: one engine run over every
outbound message (oldest-stored first) with the run's clock, ending in the
run's single `session.commit()`.  Invoking it at all first needs the
module import, which raises; an `.error` result means the exception
propagated before that commit, so the durable store is unchanged (pending
inserts roll back). -/
def run_delivery (receipt : Receipt) (now : Int) (db : Db) :
    Except PyExc (Nat × Db) :=
  match outbound_delivery_service_import with
  | .error e => .error e
  | .ok _ =>
    let outbound_messages :=
      sort_by_stored (db.messages.filter fun m =>
        decide (m.direction = Direction.outbound))
    run_loop receipt now outbound_messages 0 db

/-- Attempt count of a message, as the engine derives it. -/
def attempts_of (db : Db) (message_id : Nat) : Nat :=
  (get_attempt_state db message_id).1

/-- Number of `retry_exhausted` audit rows for a message. -/
def exhausted_count (db : Db) (message_id : Nat) : Nat :=
  (db.delivery_events.filter fun e =>
    decide (e.message_id = message_id ∧ e.event_type = EVENT_RETRY_EXHAUSTED)).length

/-- The oracle of a store that accepts every commit. -/
def no_fail : Oracle := fun _ => none

/-! ### Concrete stores, payloads and oracles used by the witnesses and counterexamples -/

/-- Database of the C5 witness: one outbound reply with the same text stored
90 seconds before the draft request, and no message carrying the key. -/
def c5_db : Db :=
  { whatsapp_numbers := []
    clients := []
    contacts := []
    conversations := []
    messages := [⟨20, 4, Direction.outbound, "Open 9-5", some "parent_inbound:7", none, some 910⟩]
    faq_items := []
    delivery_events := []
    next_id := 21 }

/-- Witness for C2 at a concrete store (empty conversation). -/
def c2_db : Db :=
  { whatsapp_numbers := []
    clients := []
    contacts := []
    conversations := []
    messages := []
    faq_items := []
    delivery_events := []
    next_id := 50 }

/-- Store of the C4 failing input: one outbound message with a single
attempt event recorded at time 1000. -/
def c4_db : Db :=
  { whatsapp_numbers := []
    clients := []
    contacts := []
    conversations := []
    messages := [⟨21, 4, Direction.outbound, "Open 9-5", some "parent_inbound:9", none, some 500⟩]
    faq_items := []
    delivery_events := [⟨30, 21, "dry_run_attempt", "gateway disabled", 1000⟩]
    next_id := 31 }

/-- Store of the C3 failing input: a message whose event log already holds
three attempt events and no exhausted marker. -/
def c3_db : Db :=
  { whatsapp_numbers := []
    clients := []
    contacts := []
    conversations := []
    messages := [⟨21, 4, Direction.outbound, "Open 9-5", some "parent_inbound:9", none, some 500⟩]
    faq_items := []
    delivery_events :=
      [⟨30, 21, "dry_run_attempt", "a", 1000⟩,
       ⟨31, 21, "retry_attempt", "b", 2000⟩,
       ⟨32, 21, "dry_run_attempt", "c", 4000⟩]
    next_id := 33 }

/-- Store of the C1 failing input: the single open conversation has been
handed over (`status = handed_over`), and an active FAQ of the client
matches the inbound text. -/
def c1_db : Db :=
  { whatsapp_numbers := [⟨1, 2, "27110000000"⟩]
    clients := [⟨2⟩]
    contacts := [⟨3, "27820000001"⟩]
    conversations := [⟨4, 2, 1, 3, ConvStatus.handed_over, none⟩]
    messages := []
    faq_items := [⟨5, 2, "hours", "We are open 09:00-17:00", true⟩]
    delivery_events := []
    next_id := 10 }

/-- Payload of the C1 failing input: an ordinary inbound message matching
the FAQ pattern. -/
def c1_payload : Payload :=
  ⟨some "27110000000", some "27820000001", some "What are your HOURS?"⟩

/-- Store of the C9 counterexample: one provisioned number and client, no
contacts, no conversations, no messages. -/
def c9_db : Db :=
  { whatsapp_numbers := [⟨1, 2, "27110000000"⟩]
    clients := [⟨2⟩]
    contacts := []
    conversations := []
    messages := []
    faq_items := []
    delivery_events := []
    next_id := 10 }

/-- Store of the C7 counterexample: a fully resolved automated conversation
whose client has one active FAQ (`"hours"`) that does not match the inbound
text. -/
def c7_db : Db :=
  { whatsapp_numbers := [⟨1, 2, "27110000000"⟩]
    clients := [⟨2⟩]
    contacts := [⟨3, "27820000001"⟩]
    conversations := [⟨4, 2, 1, 3, ConvStatus.automated, none⟩]
    messages := []
    faq_items := [⟨5, 2, "hours", "We are open 09:00-17:00", true⟩]
    delivery_events := []
    next_id := 10 }

/-- Store of the C6 counterexample: a provisioned number and client and no
contact row for the sender, so the pipeline must insert one. -/
def c6_db : Db :=
  { whatsapp_numbers := [⟨1, 2, "27110000000"⟩]
    clients := [⟨2⟩]
    contacts := []
    conversations := []
    messages := []
    faq_items := []
    delivery_events := []
    next_id := 10 }

/-- Oracle of the C6 counterexample: the contact-insert commit fails with an
ordinary persistence error. -/
def c6_oracle : Oracle :=
  fun s => if s = CommitSite.contact_create then some DbErr.unavailable else none

/-- Store of the C8 counterexample: a provisioned number and client; the
sender has no contact row, so the pipeline inserts one and a racing writer
makes that insert violate the unique constraint. -/
def c8_db : Db :=
  { whatsapp_numbers := [⟨1, 2, "27110000000"⟩]
    clients := [⟨2⟩]
    contacts := []
    conversations := []
    messages := []
    faq_items := []
    delivery_events := []
    next_id := 10 }

/-- Oracle of the C8 counterexample: the contact-insert commit raises
`IntegrityError` (unique-constraint violation by a racing writer). -/
def c8_oracle : Oracle :=
  fun s => if s = CommitSite.contact_create then some DbErr.integrity else none

/-! ### Shared lemmas about the outbound draft service -/

/-- Shape of a successful draft call: either suppressed (no change) or one
outbound row with the derived idempotency key appended. -/
lemma create_outbound_shape {o : Oracle} {now : Int} {db : Db}
    {i c : Nat} {txt : String} {res : Option MessageR} {db' : Db}
    (h : create_outbound_message o now db i c txt = .ok (res, db')) :
    (res = none ∧ db' = db)
    ∨ (find_existing_for_inbound db c (idem_key i) = none
        ∧ db'.messages
          = db.messages ++ [⟨db.next_id, c, Direction.outbound, txt, some (idem_key i), none, some now⟩]
        ∧ db'.whatsapp_numbers = db.whatsapp_numbers
        ∧ db'.clients = db.clients
        ∧ db'.contacts = db.contacts
        ∧ db'.conversations = db.conversations
        ∧ db'.faq_items = db.faq_items
        ∧ db'.delivery_events = db.delivery_events) := by
  cases hfind : find_existing_for_inbound db c (idem_key i) with
  | some m0 =>
    simp only [create_outbound_message, hfind] at h
    exact Or.inl (by injection h with h'; injection h' with h1 h2; exact ⟨h1.symm, h2.symm⟩)
  | none =>
    simp only [create_outbound_message, hfind] at h
    split at h
    · exact Or.inl (by injection h with h'; injection h' with h1 h2; exact ⟨h1.symm, h2.symm⟩)
    · split at h
      · exact absurd h (by simp)
      · injection h with h'
        injection h' with h1 h2
        subst h2
        exact Or.inr ⟨rfl, rfl, rfl, rfl, rfl, rfl, rfl, rfl⟩

/-- A successful draft call never touches inbound rows. -/
lemma create_outbound_inbound_count {o : Oracle} {now : Int} {db : Db}
    {i c : Nat} {txt : String} {res : Option MessageR} {db' : Db}
    (h : create_outbound_message o now db i c txt = .ok (res, db')) :
    count_messages db' Direction.inbound = count_messages db Direction.inbound := by
  rcases create_outbound_shape h with ⟨-, rfl⟩ | ⟨-, hm, -⟩
  · rfl
  · simp [count_messages, hm, List.filter_append]

/-- When the store accepts the outbound commit, the draft call cannot
raise. -/
lemma create_outbound_ok (o : Oracle) (now : Int) (db : Db) (i c : Nat)
    (txt : String) (ho : o CommitSite.outbound_insert = none) :
    ∃ res db', create_outbound_message o now db i c txt = .ok (res, db') := by
  simp only [create_outbound_message]
  split
  · exact ⟨none, db, rfl⟩
  · split
    · exact ⟨none, db, rfl⟩
    · split
      · rename_i e heq
        rw [ho] at heq
        exact Option.noConfusion heq
      · exact ⟨_, _, rfl⟩

/-- When the store accepts the outbound commit, the service entry point
cannot raise. -/
lemma handle_inbound_message_ok (o : Oracle) (now : Int) (db : Db) (i c : Nat)
    (txt : String) (r : Option String) (ho : o CommitSite.outbound_insert = none) :
    ∃ db', handle_inbound_message o now db i c txt r = .ok db' := by
  unfold handle_inbound_message
  match r with
  | none => exact ⟨db, rfl⟩
  | some s =>
    simp only
    split
    · exact ⟨db, rfl⟩
    · obtain ⟨res, db', h⟩ := create_outbound_ok o now db i c s ho
      exact ⟨db', by rw [h]⟩

/-- The service entry point never touches inbound rows. -/
lemma handle_inbound_message_inbound_count {o : Oracle} {now : Int} {db : Db}
    {i c : Nat} {txt : String} {r : Option String} {db' : Db}
    (h : handle_inbound_message o now db i c txt r = .ok db') :
    count_messages db' Direction.inbound = count_messages db Direction.inbound := by
  unfold handle_inbound_message at h
  match r with
  | none => injection h with h; rw [← h]
  | some s =>
    simp only at h
    split at h
    · injection h with h; rw [← h]
    · revert h
      match hc : create_outbound_message o now db i c s with
      | .error e => intro h; exact absurd h (by simp)
      | .ok (res, db'') =>
        intro h
        injection h with h
        subst h
        exact create_outbound_inbound_count hc

/-! ### Claim C10 -/

/-- Claim C10: a call of `MessageService.handle_inbound_message` whose
`selected_response` is `None` or the empty string returns without creating
an outbound message and leaves the store entirely unchanged (the result is
`.ok` of the very same store). -/
theorem handle_inbound_no_response_is_noop (o : Oracle) (now : Int) (db : Db)
    (inbound_message_id conversation_id : Nat) (inbound_text : String) :
    handle_inbound_message o now db inbound_message_id conversation_id
        inbound_text none = .ok db
    ∧ handle_inbound_message o now db inbound_message_id conversation_id
        inbound_text (some "") = .ok db := by
  exact ⟨rfl, by simp [handle_inbound_message]⟩

/-! ### Claim C5 -/

/-- Claim C5: when the idempotency rule does not fire and the most recent
outbound message with identical text in the conversation was stored less
than two minutes before the draft request, the draft call returns `none`
and inserts nothing. -/
theorem draft_suppressed_by_time_window (o : Oracle) (now : Int) (db : Db)
    (inbound_message_id conversation_id : Nat) (message_text : String)
    (m : MessageR) (t : Int)
    (hkey : find_existing_for_inbound db conversation_id
        (idem_key inbound_message_id) = none)
    (hrecent : last_outbound_same_text db conversation_id message_text = some m)
    (hstored : m.stored_at = some t)
    (hwin : now - t < TWO_MINUTES) :
    create_outbound_message o now db inbound_message_id conversation_id
      message_text = .ok (none, db) := by
  simp [create_outbound_message, hkey, hrecent, hstored, hwin]

/-- Witness for C5 at a concrete store. -/
theorem draft_suppressed_by_time_window_check :
    create_outbound_message no_fail 1000 c5_db 8 4 "Open 9-5" = .ok (none, c5_db) :=
  draft_suppressed_by_time_window no_fail 1000 c5_db 8 4 "Open 9-5"
    ⟨20, 4, Direction.outbound, "Open 9-5", some "parent_inbound:7", none, some 910⟩ 910
    (by decide) (by decide) (by decide) (by decide)

/-! ### Claim C2 -/

/-- Claim C2: drafting is idempotent in the inbound message id.  When the
store accepts the commit, a first draft call succeeds, a second call with
identical arguments returns `none` and leaves the store untouched, and the
conversation never holds more than one outbound message whose
`provider_message_id` is the key derived from that inbound id. -/
theorem draft_idempotent (o : Oracle) (now : Int) (db : Db)
    (inbound_message_id conversation_id : Nat) (message_text : String)
    (ho : o CommitSite.outbound_insert = none) :
    ∃ r1 db1,
      create_outbound_message o now db inbound_message_id conversation_id
          message_text = .ok (r1, db1)
      ∧ create_outbound_message o now db1 inbound_message_id conversation_id
          message_text = .ok (none, db1)
      ∧ key_count db1 conversation_id (idem_key inbound_message_id)
          ≤ max 1 (key_count db conversation_id (idem_key inbound_message_id)) := by
  obtain ⟨r1, db1, h1⟩ :=
    create_outbound_ok o now db inbound_message_id conversation_id message_text ho
  refine ⟨r1, db1, h1, ?_⟩
  rcases create_outbound_shape h1 with ⟨hr, hdb⟩ | ⟨hnone, hm, -⟩
  · subst hdb
    subst hr
    exact ⟨h1, le_max_right _ _⟩
  · have hfilter :
        db.messages.filter (fun m =>
          decide (m.conversation_id = conversation_id
            ∧ m.direction = Direction.outbound
            ∧ m.provider_message_id = some (idem_key inbound_message_id))) = [] :=
      List.filter_eq_nil_iff.mpr (List.find?_eq_none.mp hnone)
    have hfind :
        find_existing_for_inbound db1 conversation_id (idem_key inbound_message_id)
          = some ⟨db.next_id, conversation_id, Direction.outbound, message_text,
              some (idem_key inbound_message_id), none, some now⟩ := by
      unfold find_existing_for_inbound at hnone ⊢
      rw [hm, List.find?_append, hnone]
      simp
    constructor
    · simp [create_outbound_message, hfind]
    · have h1' : key_count db1 conversation_id (idem_key inbound_message_id) = 1 := by
        unfold key_count
        rw [hm, List.filter_append, hfilter]
        simp
      rw [h1']
      exact le_max_left _ _

/-- Witness for C2: the idempotence law at a concrete store. -/
theorem draft_idempotent_check :
    ∃ r1 db1,
      create_outbound_message no_fail 1000 c2_db 7 4 "hello" = .ok (r1, db1)
      ∧ create_outbound_message no_fail 1000 db1 7 4 "hello" = .ok (none, db1)
      ∧ key_count db1 4 (idem_key 7) ≤ max 1 (key_count c2_db 4 (idem_key 7)) :=
  draft_idempotent no_fail 1000 c2_db 7 4 "hello" rfl

/-! ### Claim C4 -/

/-- Claim C4 (refuted by the code): no delivery engine run can perform the
claimed attempt.  With exactly one attempt recorded at time 1000, a run at
T+360 s cannot even import the engine module (the broken
`app.outbound` package / factory imports), and stepping the per-message
eligibility logic directly, the run raises `AttributeError` at
`msg.to_send_request()` with no attempt event recorded and nothing
committed; at T+240 s the message is merely not yet eligible.  Only the
wait table of `_required_wait` (0 s, 300 s, 1800 s, then never) matches the
claim. -/
theorem delivery_attempt_never_performed :
    run_delivery ⟨SendStatusR.disabled, "gateway disabled"⟩ 1360 c4_db
      = .error PyExc.import_error
    ∧ attempt_if_eligible ⟨SendStatusR.disabled, "gateway disabled"⟩ 1360 c4_db 21
      = .error PyExc.attribute_error
    ∧ attempt_if_eligible ⟨SendStatusR.disabled, "gateway disabled"⟩ 1240 c4_db 21
      = .ok (false, c4_db)
    ∧ required_wait 0 = some 0
    ∧ required_wait 1 = some BACKOFF_AFTER_ATTEMPT_1
    ∧ required_wait 2 = some BACKOFF_AFTER_ATTEMPT_2
    ∧ required_wait 3 = none :=
  ⟨rfl, rfl, rfl, rfl, rfl, rfl, rfl⟩

/-! ### Claim C3 -/

/-- Claim C3 (refuted by the code): the delivery engine can never record
the events the claim constrains.  Importing its module raises, so no engine
run exists; and at a store already holding `MAX_ATTEMPTS` attempt events
for a message, a run still cannot execute, so the single `retry_exhausted`
marker the claim promises once the cap is reached is never written — its
count stays zero no matter how often a run is attempted. -/
theorem delivery_engine_cannot_record_events :
    outbound_delivery_service_import = .error PyExc.import_error
    ∧ run_delivery ⟨SendStatusR.sent, "x"⟩ 99999 c3_db = .error PyExc.import_error
    ∧ attempts_of c3_db 21 = MAX_ATTEMPTS
    ∧ exhausted_count c3_db 21 = 0 :=
  ⟨rfl, rfl, rfl, rfl⟩


/-! ### Shared lemmas about the webhook handler -/

/-- The `ADD CLIENT` branch always raises the messenger `ImportError`
before touching the store. -/
lemma add_client_branch_raises (o : Oracle) (db : Db) (t : String) :
    add_client_branch o db t = (HandlerResult.raised_import, db) := rfl

/-- The `REMOVE CLIENT` branch always raises the messenger `ImportError`
before touching the store. -/
lemma remove_client_branch_raises (o : Oracle) (db : Db) (t : String) :
    remove_client_branch o db t = (HandlerResult.raised_import, db) := rfl

/-- The `SEND` branch always raises the messenger `ImportError` before
touching the store. -/
lemma send_branch_raises (db : Db) (t : String) :
    send_branch db t = (HandlerResult.raised_import, db) := rfl

/-- With the contact commit accepted, contact resolution succeeds and only
the contacts table (and the id supply) can change. -/
lemma resolve_contact_ok (o : Oracle) (db : Db) (s : String)
    (hc : o CommitSite.contact_create = none) :
    ∃ c db', resolve_contact o db s = .ok (c, db')
      ∧ db'.messages = db.messages
      ∧ db'.faq_items = db.faq_items
      ∧ db'.conversations = db.conversations
      ∧ db'.delivery_events = db.delivery_events := by
  unfold resolve_contact
  split
  · exact ⟨_, db, rfl, rfl, rfl, rfl, rfl⟩
  · rw [hc]
    exact ⟨_, _, rfl, rfl, rfl, rfl, rfl⟩

/-- With the conversation commit accepted, conversation resolution succeeds
and only the conversations table (and the id supply) can change. -/
lemma resolve_conversation_ok (o : Oracle) (db : Db) (client : ClientR)
    (wa : WhatsAppNumberR) (contact : ContactR)
    (hv : o CommitSite.conversation_create = none) :
    ∃ cv db', resolve_conversation o db client wa contact = .ok (cv, db')
      ∧ db'.messages = db.messages
      ∧ db'.faq_items = db.faq_items
      ∧ db'.delivery_events = db.delivery_events := by
  unfold resolve_conversation
  split
  · exact ⟨_, db, rfl, rfl, rfl, rfl⟩
  · rw [hv]
    exact ⟨_, _, rfl, rfl, rfl, rfl⟩

/-! ### Claim C1 -/

/-- Claim C1 (refuted by the code): the pipeline never consults
`Conversation.status`, so an inbound message to a handed-over conversation
is still FAQ-matched and still drafts an outbound reply — here the handler
acknowledges 200 and the store ends with one inbound *and one outbound*
message although the conversation's status is `handed_over`. -/
theorem handover_gate_missing :
    (whatsapp_webhook [] no_fail 1000 (some c1_payload) c1_db).1 = HandlerResult.ok200
    ∧ count_messages (whatsapp_webhook [] no_fail 1000 (some c1_payload) c1_db).2
        Direction.inbound = 1
    ∧ count_messages (whatsapp_webhook [] no_fail 1000 (some c1_payload) c1_db).2
        Direction.outbound = 1
    ∧ c1_db.conversations.map ConversationR.status = [ConvStatus.handed_over] := by
  decide

/-! ### Claim C9 -/

/-- Outside the admin command branches and with all payload fields present,
the handler runs the inbound pipeline. -/
lemma whatsapp_webhook_non_admin (allowlist : List String) (o : Oracle)
    (now : Int) (db : Db) (dest sender text : String)
    (hdest : dest ≠ "") (hsender : sender ≠ "") (htext : text ≠ "")
    (hadmin : allowlist.contains sender = false) :
    whatsapp_webhook allowlist o now (some ⟨some dest, some sender, some text⟩) db
      = main_pipeline o now db dest sender text := by
  have hmem : ¬ sender ∈ allowlist := by simpa using hadmin
  simp [whatsapp_webhook, nonempty_str, hdest, hsender, htext, hmem]

/-- Counterexample to C9 as stated: this event passes payload extraction
(destination, sender and text all present and non-empty), yet because the
destination number is unknown the handler stores no inbound Message row at
all — "passes extraction" does not suffice for the claimed row. -/
theorem inbound_row_requires_routing :
    whatsapp_webhook [] no_fail 1000
        (some ⟨some "27119999999", some "27820000001", some "hello"⟩) c9_db
      = (HandlerResult.ok200, c9_db)
    ∧ count_messages c9_db Direction.inbound = 0 := by
  decide

/-- Claim C9 as amended: an event that passes extraction, is not intercepted
as an admin command, resolves a WhatsApp number and its client, and whose
contact, conversation, and inbound-message commits are accepted, produces
exactly one new inbound Message row — even if outbound drafting is skipped
or its commit fails. -/
theorem inbound_persisted_when_resolved (allowlist : List String) (o : Oracle)
    (now : Int) (db : Db) (dest sender text : String)
    (wa : WhatsAppNumberR) (client : ClientR)
    (hdest : dest ≠ "") (hsender : sender ≠ "") (htext : text ≠ "")
    (hadmin : allowlist.contains sender = false)
    (hwa : db.whatsapp_numbers.find?
        (fun w => decide (w.destination_number = dest)) = some wa)
    (hclient : db.clients.find?
        (fun c => decide (c.client_id = wa.client_id)) = some client)
    (hc : o CommitSite.contact_create = none)
    (hv : o CommitSite.conversation_create = none)
    (hi : o CommitSite.inbound_insert = none) :
    count_messages
        (whatsapp_webhook allowlist o now
          (some ⟨some dest, some sender, some text⟩) db).2 Direction.inbound
      = count_messages db Direction.inbound + 1 := by
  rw [whatsapp_webhook_non_admin allowlist o now db dest sender text
    hdest hsender htext hadmin]
  obtain ⟨c, db1, h1, hm1, hf1, hcv1, hde1⟩ := resolve_contact_ok o db sender hc
  obtain ⟨cv, db2, h2, hm2, hf2, hde2⟩ := resolve_conversation_ok o db1 client wa c hv
  simp only [main_pipeline, hwa, hclient, h1, h2, hi]
  rcases hfq : (db2.faq_items.filter fun f =>
      decide (f.client_id = client.client_id) && f.is_active).find?
        (fun f => contains_ci f.match_pattern text) with _ | f
  · simp only [hfq]
    simp [count_messages, List.filter_append, hm2, hm1]
  · simp only [hfq]
    rcases hh : handle_inbound_message o now
        { db2 with
          messages := db2.messages ++
            [⟨db2.next_id, cv.conversation_id, Direction.inbound, text, none, none, some now⟩]
          next_id := db2.next_id + 1 }
        db2.next_id cv.conversation_id text (some f.response_text) with e | db4
    · simp only [hh]
      simp [count_messages, List.filter_append, hm2, hm1]
    · simp only [hh]
      rw [handle_inbound_message_inbound_count hh]
      simp [count_messages, List.filter_append, hm2, hm1]

/-- Witness for C9 at a concrete store: first inbound from a new sender. -/
theorem inbound_persisted_when_resolved_check :
    count_messages
        (whatsapp_webhook [] no_fail 1000
          (some ⟨some "27110000000", some "27820000001", some "hello"⟩) c9_db).2
        Direction.inbound
      = count_messages c9_db Direction.inbound + 1 :=
  inbound_persisted_when_resolved [] no_fail 1000 c9_db
    "27110000000" "27820000001" "hello" ⟨1, 2, "27110000000"⟩ ⟨2⟩
    (by decide) (by decide) (by decide) (by decide) (by decide) (by decide)
    rfl rfl rfl

/-! ### Claim C7 -/

/-- Counterexample to C7 as stated: the inbound text matches no active FAQ
and the store accepts every commit, yet the pipeline drafts *no* outbound
message at all — no fixed fallback response is requested. -/
theorem no_fallback_drafted :
    (whatsapp_webhook [] no_fail 1000
        (some ⟨some "27110000000", some "27820000001", some "how much is it?"⟩)
        c7_db).1 = HandlerResult.ok200
    ∧ count_messages (whatsapp_webhook [] no_fail 1000
        (some ⟨some "27110000000", some "27820000001", some "how much is it?"⟩)
        c7_db).2 Direction.outbound = 0
    ∧ count_messages (whatsapp_webhook [] no_fail 1000
        (some ⟨some "27110000000", some "27820000001", some "how much is it?"⟩)
        c7_db).2 Direction.inbound = 1 := by
  decide

/-- Claim C7 as amended: when the inbound text matches no active FaqItem of
the client, the pipeline requests no outbound draft at all — the handler
acknowledges 200, stores the inbound message, and the outbound message
count is unchanged (there is no fallback response). -/
theorem no_reply_when_no_faq_matches (allowlist : List String) (o : Oracle)
    (now : Int) (db : Db) (dest sender text : String)
    (wa : WhatsAppNumberR) (client : ClientR)
    (hdest : dest ≠ "") (hsender : sender ≠ "") (htext : text ≠ "")
    (hadmin : allowlist.contains sender = false)
    (hwa : db.whatsapp_numbers.find?
        (fun w => decide (w.destination_number = dest)) = some wa)
    (hclient : db.clients.find?
        (fun c => decide (c.client_id = wa.client_id)) = some client)
    (hc : o CommitSite.contact_create = none)
    (hv : o CommitSite.conversation_create = none)
    (hi : o CommitSite.inbound_insert = none)
    (hfaq : ∀ f ∈ db.faq_items, f.client_id = client.client_id →
        f.is_active = true → contains_ci f.match_pattern text = false) :
    (whatsapp_webhook allowlist o now
        (some ⟨some dest, some sender, some text⟩) db).1 = HandlerResult.ok200
    ∧ count_messages
        (whatsapp_webhook allowlist o now
          (some ⟨some dest, some sender, some text⟩) db).2 Direction.outbound
      = count_messages db Direction.outbound := by
  rw [whatsapp_webhook_non_admin allowlist o now db dest sender text
    hdest hsender htext hadmin]
  obtain ⟨c, db1, h1, hm1, hf1, hcv1, hde1⟩ := resolve_contact_ok o db sender hc
  obtain ⟨cv, db2, h2, hm2, hf2, hde2⟩ := resolve_conversation_ok o db1 client wa c hv
  simp only [main_pipeline, hwa, hclient, h1, h2, hi]
  have hfind : (db2.faq_items.filter fun f =>
      decide (f.client_id = client.client_id) && f.is_active).find?
        (fun f => contains_ci f.match_pattern text) = none := by
    refine List.find?_eq_none.mpr ?_
    intro f hf
    have hmemf := List.mem_filter.mp hf
    have hmem0 : f ∈ db.faq_items := by
      have := hmemf.1
      rw [hf2, hf1] at this
      exact this
    have hpred := hmemf.2
    rw [Bool.and_eq_true] at hpred
    have hcl : f.client_id = client.client_id := by
      have := hpred.1
      simpa using this
    have hact : f.is_active = true := hpred.2
    simp [hfaq f hmem0 hcl hact]
  simp only [hfind]
  constructor
  · trivial
  · simp [count_messages, List.filter_append, hm2, hm1]

/-- Witness for C7 at a concrete store. -/
theorem no_reply_when_no_faq_matches_check :
    (whatsapp_webhook [] no_fail 1000
        (some ⟨some "27110000000", some "27820000001", some "how much is it?"⟩)
        c7_db).1 = HandlerResult.ok200
    ∧ count_messages (whatsapp_webhook [] no_fail 1000
        (some ⟨some "27110000000", some "27820000001", some "how much is it?"⟩)
        c7_db).2 Direction.outbound
      = count_messages c7_db Direction.outbound :=
  no_reply_when_no_faq_matches [] no_fail 1000 c7_db
    "27110000000" "27820000001" "how much is it?" ⟨1, 2, "27110000000"⟩ ⟨2⟩
    (by decide) (by decide) (by decide) (by decide) (by decide) (by decide)
    rfl rfl rfl (by decide)

/-! ### Claim C6 -/

/-- When the four pipeline commit sites are accepted, the inbound pipeline
always answers the fixed 200 response. -/
lemma main_pipeline_fst_ok (o : Oracle) (now : Int) (db : Db)
    (dest sender text : String)
    (hc : o CommitSite.contact_create = none)
    (hv : o CommitSite.conversation_create = none)
    (hi : o CommitSite.inbound_insert = none)
    (ho : o CommitSite.outbound_insert = none) :
    (main_pipeline o now db dest sender text).1 = HandlerResult.ok200 := by
  rcases hwa : db.whatsapp_numbers.find?
      (fun w => decide (w.destination_number = dest)) with _ | wa
  · simp [main_pipeline, hwa]
  · rcases hcl : db.clients.find?
        (fun c => decide (c.client_id = wa.client_id)) with _ | client
    · simp [main_pipeline, hwa, hcl]
    · obtain ⟨c, db1, h1, -⟩ := resolve_contact_ok o db sender hc
      obtain ⟨cv, db2, h2, -⟩ := resolve_conversation_ok o db1 client wa c hv
      simp only [main_pipeline, hwa, hcl, h1, h2, hi]
      rcases hfq : (db2.faq_items.filter fun f =>
          decide (f.client_id = client.client_id) && f.is_active).find?
            (fun f => contains_ci f.match_pattern text) with _ | f
      · simp [hfq]
      · obtain ⟨db4, h4⟩ := handle_inbound_message_ok o now
          { db2 with
            messages := db2.messages ++
              [⟨db2.next_id, cv.conversation_id, Direction.inbound, text, none, none, some now⟩]
            next_id := db2.next_id + 1 }
          db2.next_id cv.conversation_id text (some f.response_text) ho
        simp [hfq, h4]

/-- Counterexample to C6 as stated: when the contact-insert commit fails,
the exception propagates out of the handler (FastAPI turns it into an error
response) instead of the fixed 200 acknowledgement. -/
theorem webhook_raises_on_store_failure :
    (whatsapp_webhook [] c6_oracle 1000
        (some ⟨some "27110000000", some "27820000001", some "hello"⟩) c6_db).1
      = HandlerResult.raised DbErr.unavailable
    ∧ (whatsapp_webhook [] c6_oracle 1000
        (some ⟨some "27110000000", some "27820000001", some "hello"⟩) c6_db).1
      ≠ HandlerResult.ok200 := by
  decide

/-- Claim C6 as amended: the handler answers the fixed 200 response for
every request — malformed payloads, missing fields, admin commands (even
when their commits fail, which the branches catch) and the full pipeline —
*provided* no persistence call of the unguarded inbound pipeline fails; a
failing pipeline commit instead propagates as an exception. -/
theorem webhook_response_when_pipeline_commits_succeed
    (allowlist : List String) (o : Oracle) (now : Int)
    (payload : Option Payload) (db : Db)
    (hc : o CommitSite.contact_create = none)
    (hv : o CommitSite.conversation_create = none)
    (hi : o CommitSite.inbound_insert = none)
    (ho : o CommitSite.outbound_insert = none) :
    (is_admin_command allowlist payload = false →
      (whatsapp_webhook allowlist o now payload db).1 = HandlerResult.ok200)
    ∧ (is_admin_command allowlist payload = true →
      (whatsapp_webhook allowlist o now payload db).1 = HandlerResult.raised_import) := by
  constructor
  · intro hno
    rcases payload with _ | ⟨pd, ps, pt⟩
    · rfl
    · rcases hd : nonempty_str pd with _ | dest
      · simp [whatsapp_webhook, hd]
      · rcases hs : nonempty_str ps with _ | sender
        · simp [whatsapp_webhook, hd, hs]
        · rcases ht : nonempty_str pt with _ | text
          · simp [whatsapp_webhook, hd, hs, ht]
          · simp only [is_admin_command, hd, hs, ht] at hno
            simp only [whatsapp_webhook, hd, hs, ht]
            cases hA : upper_starts_with text "ADD CLIENT:" <;>
              cases hB : upper_starts_with text "REMOVE CLIENT:" <;>
                cases hC : upper_starts_with text "SEND:" <;>
                  cases hct : allowlist.contains sender <;>
                    simp_all [main_pipeline_fst_ok o now db dest sender text hc hv hi ho]
  · intro hyes
    rcases payload with _ | ⟨pd, ps, pt⟩
    · exact absurd hyes (by simp [is_admin_command])
    · rcases hd : nonempty_str pd with _ | dest
      · exact absurd hyes (by simp [is_admin_command, hd])
      · rcases hs : nonempty_str ps with _ | sender
        · exact absurd hyes (by simp [is_admin_command, hd, hs])
        · rcases ht : nonempty_str pt with _ | text
          · exact absurd hyes (by simp [is_admin_command, hd, hs, ht])
          · simp only [is_admin_command, hd, hs, ht] at hyes
            simp only [whatsapp_webhook, hd, hs, ht]
            cases hA : upper_starts_with text "ADD CLIENT:" <;>
              cases hB : upper_starts_with text "REMOVE CLIENT:" <;>
                cases hC : upper_starts_with text "SEND:" <;>
                  cases hct : allowlist.contains sender <;>
                    simp_all [add_client_branch_raises, remove_client_branch_raises,
                      send_branch_raises]

/-- Witness for C6: the fixed 200 on a concrete ordinary inbound, and the
raised `ImportError` on a concrete allowlisted admin command, both at a
store that accepts every commit. -/
theorem webhook_response_check :
    (whatsapp_webhook [] no_fail 1000
        (some ⟨some "27110000000", some "27820000001", some "hello"⟩) c6_db).1
      = HandlerResult.ok200
    ∧ (whatsapp_webhook ["27820000001"] no_fail 1000
        (some ⟨some "27110000000", some "27820000001", some "ADD CLIENT: 0821234567"⟩)
        c6_db).1
      = HandlerResult.raised_import :=
  ⟨(webhook_response_when_pipeline_commits_succeed [] no_fail 1000
      (some ⟨some "27110000000", some "27820000001", some "hello"⟩) c6_db
      rfl rfl rfl rfl).1 (by decide),
    (webhook_response_when_pipeline_commits_succeed ["27820000001"] no_fail 1000
      (some ⟨some "27110000000", some "27820000001", some "ADD CLIENT: 0821234567"⟩)
      c6_db rfl rfl rfl rfl).2 (by decide)⟩

/-! ### Claim C8 -/

/-- Counterexample to C8 as stated: a uniqueness violation on the Contact
insert is *not* treated as "already exists": the handler re-reads nothing,
processes nothing further (no inbound Message row; store unchanged) and the
violation surfaces as a raised error. -/
theorem contact_race_not_reread :
    whatsapp_webhook [] c8_oracle 1000
        (some ⟨some "27110000000", some "27820000001", some "hello"⟩) c8_db
      = (HandlerResult.raised DbErr.integrity, c8_db)
    ∧ count_messages c8_db Direction.inbound = 0 := by
  decide

/-- Claim C8 as amended: a uniqueness violation raised by the Contact
insert (or, symmetrically, by the open-Conversation insert) in the webhook
pipeline is not caught: the exception propagates out of the handler, the
store is left exactly as it was, and no re-read or further processing
happens. -/
theorem integrity_violation_uncaught (allowlist : List String) (o : Oracle)
    (now : Int) (db : Db) (dest sender text : String)
    (wa : WhatsAppNumberR) (client : ClientR)
    (hdest : dest ≠ "") (hsender : sender ≠ "") (htext : text ≠ "")
    (hadmin : allowlist.contains sender = false)
    (hwa : db.whatsapp_numbers.find?
        (fun w => decide (w.destination_number = dest)) = some wa)
    (hclient : db.clients.find?
        (fun c => decide (c.client_id = wa.client_id)) = some client)
    (hcase :
      (db.contacts.find? (fun c => decide (c.contact_number = sender)) = none
        ∧ o CommitSite.contact_create = some DbErr.integrity)
      ∨ (∃ c, db.contacts.find?
            (fun c' => decide (c'.contact_number = sender)) = some c
          ∧ db.conversations.find? (fun cv =>
              decide (cv.wa_number_id = wa.wa_number_id
                ∧ cv.contact_id = c.contact_id
                ∧ cv.closed_at = none)) = none
          ∧ o CommitSite.conversation_create = some DbErr.integrity)) :
    whatsapp_webhook allowlist o now (some ⟨some dest, some sender, some text⟩) db
      = (HandlerResult.raised DbErr.integrity, db) := by
  rw [whatsapp_webhook_non_admin allowlist o now db dest sender text
    hdest hsender htext hadmin]
  rcases hcase with ⟨hfc, hint⟩ | ⟨c, hfc, hfcv, hint⟩
  · have h1 : resolve_contact o db sender = .error DbErr.integrity := by
      simp [resolve_contact, hfc, hint]
    simp [main_pipeline, hwa, hclient, h1]
  · have h1 : resolve_contact o db sender = .ok (c, db) := by
      simp [resolve_contact, hfc]
    have h2 : resolve_conversation o db client wa c = .error DbErr.integrity := by
      have hfcv' := hfcv
      simp only [Bool.decide_and] at hfcv'
      simp [resolve_conversation, hfcv', hint]
    simp [main_pipeline, hwa, hclient, h1, h2]

/-- Witness for C8 at a concrete store, with the race at the contact
insert. -/
theorem integrity_violation_uncaught_check :
    whatsapp_webhook [] c8_oracle 1000
        (some ⟨some "27110000000", some "27820000001", some "hello"⟩) c8_db
      = (HandlerResult.raised DbErr.integrity, c8_db) :=
  integrity_violation_uncaught [] c8_oracle 1000 c8_db
    "27110000000" "27820000001" "hello" ⟨1, 2, "27110000000"⟩ ⟨2⟩
    (by decide) (by decide) (by decide) (by decide) (by decide) (by decide)
    (Or.inl ⟨by decide, by decide⟩)

end KLR
